import Mathlib

/-!
Shallow embedding of the POS cashier application's server handlers
(sale processing, stock adjustment, product queries, reporting, login),
with theorems checking the specification's claims against the code.

Monetary amounts (cost price, selling price, tax, discount, totals) are
modelled as exact rationals; integer columns as Int/Nat; nullable text
columns as Option String; timestamps as Int.  Fallible handlers return
Except, and handlers that mutate the database thread an explicit Db value.
-/

namespace POS

/-- Payment methods accepted by the schema. -/
inductive PaymentMethod
  | cash
  | card
  | mobileMoney
  | bankTransfer
deriving DecidableEq, Repr

/-- Transaction status values of the schema. -/
inductive TransactionStatus
  | pending
  | completed
  | cancelled
  | refunded
deriving DecidableEq, Repr

/-- Stock adjustment types of the schema. -/
inductive AdjustmentType
  | increase
  | decrease
  | recount
deriving DecidableEq, Repr

/-- User roles of the schema. -/
inductive Role
  | cashier
  | manager
deriving DecidableEq, Repr

/-- A row of the products table. -/
structure Product where
  id : Nat
  name : String
  description : Option String
  barcode : Option String
  cost_price : ℚ
  selling_price : ℚ
  stock_quantity : Int
  min_stock_level : Int
  category : Option String
  created_at : Int
  updated_at : Int
deriving DecidableEq, Repr

/-- A row of the transactions table. -/
structure Transaction where
  id : Nat
  user_id : Nat
  total_amount : ℚ
  tax_amount : ℚ
  discount_amount : ℚ
  payment_method : PaymentMethod
  status : TransactionStatus
  receipt_number : String
  created_at : Int
deriving DecidableEq, Repr

/-- A row of the transaction items table. -/
structure TransactionItem where
  id : Nat
  transaction_id : Nat
  product_id : Nat
  quantity : Nat
  unit_price : ℚ
  total_price : ℚ
deriving DecidableEq, Repr

/-- A row of the stock adjustments table. -/
structure StockAdjustment where
  id : Nat
  product_id : Nat
  user_id : Nat
  adjustment_type : AdjustmentType
  quantity_change : Int
  reason : String
  created_at : Int
deriving DecidableEq, Repr

/-- A row of the users table. -/
structure User where
  id : Nat
  username : String
  email : String
  password_hash : String
  role : Role
  is_active : Bool
deriving DecidableEq, Repr

/-- The database state touched by the handlers under study. -/
structure Db where
  products : List Product
  transactions : List Transaction
  transactionItems : List TransactionItem
  stockAdjustments : List StockAdjustment
  users : List User
deriving DecidableEq, Repr

/-! ## createSale (src/unnamed/part_005) -/

/-- One element of CreateSaleInput.items (zod: quantity positive int,
unit_price positive number). -/
structure SaleItemInput where
  product_id : Nat
  quantity : Nat
  unit_price : ℚ
deriving DecidableEq, Repr

/-- CreateSaleInput from the zod schema. -/
structure CreateSaleInput where
  items : List SaleItemInput
  payment_method : PaymentMethod
  discount_amount : ℚ
  tax_rate : ℚ
deriving DecidableEq, Repr

/-- The zod-level validity of a sale input: at least one item, positive
quantity and unit price per item, non-negative discount and tax rate. -/
def ValidSaleInput (input : CreateSaleInput) : Prop :=
  input.items ≠ [] ∧
  (∀ it ∈ input.items, 0 < it.quantity ∧ 0 < it.unit_price) ∧
  0 ≤ input.discount_amount ∧ 0 ≤ input.tax_rate

instance (input : CreateSaleInput) : Decidable (ValidSaleInput input) := by
  unfold ValidSaleInput; infer_instance

/-- The subtotal reduce loop of createSale:
`input.items.reduce((sum, item) => sum + item.quantity * item.unit_price, 0)`. -/
def saleSubtotal (items : List SaleItemInput) : ℚ :=
  items.foldl (fun s it => s + (it.quantity : ℚ) * it.unit_price) 0

/-- The per-item stock update of createSale:
`set stock_quantity = stock_quantity - item.quantity where id = item.product_id`.
No clamping is applied, so the result may be negative. -/
def saleStockStep (it : SaleItemInput) (ps : List Product) : List Product :=
  ps.map (fun p =>
    if p.id = it.product_id then
      { p with stock_quantity := p.stock_quantity - (it.quantity : Int) }
    else p)

/-- The transaction item row inserted for one input item
(total_price = quantity * unit_price). -/
def mkSaleItemRow (txId : Nat) (it : SaleItemInput) : TransactionItem :=
  { id := 0
    transaction_id := txId
    product_id := it.product_id
    quantity := it.quantity
    unit_price := it.unit_price
    total_price := (it.quantity : ℚ) * it.unit_price }

/-- The body of createSale's item loop: insert a TransactionItem row, then
decrement the product's stock. -/
def saleLoop (txId : Nat) (items : List SaleItemInput) (d : Db) : Db :=
  items.foldl
    (fun d it =>
      { d with
        transactionItems := d.transactionItems ++ [mkSaleItemRow txId it]
        products := saleStockStep it d.products })
    d

/-- createSale from src/unnamed/part_005: computes subtotal, tax and total,
inserts a completed Transaction with receipt number RCP-(timestamp), then for
each item inserts a TransactionItem row and decrements the product's stock. -/
def createSale (input : CreateSaleInput) (userId : Nat) (db : Db)
    (now : Int) (txId : Nat) : Db × Transaction :=
  let subtotal := saleSubtotal input.items
  let taxAmount := subtotal * input.tax_rate
  let totalAmount := subtotal + taxAmount - input.discount_amount
  let txn : Transaction :=
    { id := txId
      user_id := userId
      total_amount := totalAmount
      tax_amount := taxAmount
      discount_amount := input.discount_amount
      payment_method := input.payment_method
      status := .completed
      receipt_number := "RCP-" ++ toString now
      created_at := now }
  let db1 : Db := { db with transactions := db.transactions ++ [txn] }
  (saleLoop txId input.items db1, txn)

/-- Claim-side subtotal: Σ quantity × unit_price over the items. -/
def specSubtotal (items : List SaleItemInput) : ℚ :=
  (items.map (fun it => (it.quantity : ℚ) * it.unit_price)).sum

/-- Claim-side total quantity of a given product over the sale's items. -/
def soldQty (items : List SaleItemInput) (pid : Nat) : Int :=
  ((items.filter (fun it => it.product_id = pid)).map
    (fun it => (it.quantity : Int))).sum

/-- The sale input of the spec's worked example: qty 2 at 15.00 and qty 3 at
8.00, tax rate 0.15, discount 5.00.  (Note: Σ quantity × unit_price for these
items is 54.00, so tax is 8.10 and total 57.10.) -/
def exSaleInput : CreateSaleInput :=
  { items := [⟨1, 2, 15⟩, ⟨2, 3, 8⟩]
    payment_method := .cash
    discount_amount := 5
    tax_rate := 15 / 100 }

/-- An empty database. -/
def emptyDb : Db := ⟨[], [], [], [], []⟩

/-- A sale of 5 units of product 1, which holds only 1 unit in stock. -/
def exSaleInput2 : CreateSaleInput :=
  { items := [⟨1, 5, 2⟩]
    payment_method := .card
    discount_amount := 0
    tax_rate := 0 }

/-- A database with two products: product 1 with stock 1, product 2 with
stock 7. -/
def exDb2 : Db :=
  { products :=
      [ { id := 1, name := "A", description := none, barcode := none
          cost_price := 1, selling_price := 2, stock_quantity := 1
          min_stock_level := 0, category := none, created_at := 0, updated_at := 0 }
      , { id := 2, name := "B", description := none, barcode := none
          cost_price := 1, selling_price := 2, stock_quantity := 7
          min_stock_level := 0, category := none, created_at := 0, updated_at := 0 } ]
    transactions := []
    transactionItems := []
    stockAdjustments := []
    users := [] }

/-! ## createStockAdjustment (src/unnamed/part_003) -/

/-- CreateStockAdjustmentInput from the zod schema. -/
structure CreateStockAdjustmentInput where
  product_id : Nat
  adjustment_type : AdjustmentType
  quantity_change : Int
  reason : String
deriving DecidableEq, Repr

/-- The first products-table row with the given id, as returned by
`select from products where id = pid` followed by taking element 0. -/
def findProduct (ps : List Product) (pid : Nat) : Option Product :=
  ps.find? (fun p => p.id = pid)

/-- The new stock computed by createStockAdjustment's switch:
increase adds Math.abs(quantity_change), decrease subtracts it clamped at 0,
recount takes quantity_change clamped at 0. -/
def newStockQuantity (t : AdjustmentType) (current : Int) (qc : Int) : Int :=
  match t with
  | .increase => current + (qc.natAbs : Int)
  | .decrease => max 0 (current - (qc.natAbs : Int))
  | .recount => max 0 qc

/-- createStockAdjustment from src/unnamed/part_003: looks the product up and
throws if absent (leaving the database untouched); otherwise inserts an audit
row carrying the original signed quantity_change, then sets the product's
stock_quantity to the computed value and refreshes updated_at. -/
def createStockAdjustment (input : CreateStockAdjustmentInput) (userId : Nat)
    (db : Db) (now : Int) (adjId : Nat) : Db × Except String StockAdjustment :=
  match findProduct db.products input.product_id with
  | none =>
      (db, .error ("Product with id " ++ toString input.product_id ++ " not found"))
  | some p =>
      let newQ := newStockQuantity input.adjustment_type p.stock_quantity
        input.quantity_change
      let adj : StockAdjustment :=
        { id := adjId
          product_id := input.product_id
          user_id := userId
          adjustment_type := input.adjustment_type
          quantity_change := input.quantity_change
          reason := input.reason
          created_at := now }
      let db1 : Db := { db with stockAdjustments := db.stockAdjustments ++ [adj] }
      let db2 : Db :=
        { db1 with
          products := db1.products.map (fun q =>
            if q.id = input.product_id then
              { q with stock_quantity := newQ, updated_at := now }
            else q) }
      (db2, .ok adj)

/-- The single product of exDb3: id 1, stock 100. -/
def exProd3 : Product :=
  { id := 1, name := "A", description := none, barcode := none
    cost_price := 1, selling_price := 2, stock_quantity := 100
    min_stock_level := 0, category := none, created_at := 0, updated_at := 0 }

/-- A database with a single product of id 1 and stock 100. -/
def exDb3 : Db :=
  { products := [exProd3]
    transactions := []
    transactionItems := []
    stockAdjustments := []
    users := [] }

/-- A decrease adjustment of 150 units against product 1. -/
def exAdjInput : CreateStockAdjustmentInput :=
  { product_id := 1
    adjustment_type := .decrease
    quantity_change := 150
    reason := "damaged" }

/-- An adjustment naming a product id that exDb3 does not contain. -/
def exAdjInputMissing : CreateStockAdjustmentInput :=
  { product_id := 42
    adjustment_type := .increase
    quantity_change := 3
    reason := "found extra units" }

/-! ## getLowStockProducts (src/unnamed/part_002) -/

/-- getLowStockProducts from src/unnamed/part_002: selects the products with
stock_quantity ≤ min_stock_level. -/
def getLowStockProducts (db : Db) : List Product :=
  db.products.filter (fun p => p.stock_quantity ≤ p.min_stock_level)

/-- A database with one product exactly at its threshold, one above it with
min_stock_level 0, and one below it. -/
def exDb8 : Db :=
  { products :=
      [ { id := 1, name := "at", description := none, barcode := none
          cost_price := 1, selling_price := 2, stock_quantity := 15
          min_stock_level := 15, category := none, created_at := 0, updated_at := 0 }
      , { id := 2, name := "above", description := none, barcode := none
          cost_price := 1, selling_price := 2, stock_quantity := 5
          min_stock_level := 0, category := none, created_at := 0, updated_at := 0 }
      , { id := 3, name := "below", description := none, barcode := none
          cost_price := 1, selling_price := 2, stock_quantity := 2
          min_stock_level := 10, category := none, created_at := 0, updated_at := 0 } ]
    transactions := []
    transactionItems := []
    stockAdjustments := []
    users := [] }

/-! ## updateProduct (src/unnamed/part_000) -/

/-- UpdateProductInput from the zod schema: id plus optional fields.  A
nullable column's field distinguishes absent (none) from an explicit null
(some none). -/
structure UpdateProductInput where
  id : Nat
  name : Option String
  description : Option (Option String)
  barcode : Option (Option String)
  cost_price : Option ℚ
  selling_price : Option ℚ
  stock_quantity : Option Int
  min_stock_level : Option Int
  category : Option (Option String)
deriving DecidableEq, Repr

/-- The updateData object of updateProduct: updated_at is always set, then
each input field that is present overwrites the column. -/
def applyProductUpdate (input : UpdateProductInput) (p : Product) (now : Int) :
    Product :=
  let p0 := { p with updated_at := now }
  let p1 := match input.name with
    | some v => { p0 with name := v } | none => p0
  let p2 := match input.description with
    | some v => { p1 with description := v } | none => p1
  let p3 := match input.barcode with
    | some v => { p2 with barcode := v } | none => p2
  let p4 := match input.cost_price with
    | some v => { p3 with cost_price := v } | none => p3
  let p5 := match input.selling_price with
    | some v => { p4 with selling_price := v } | none => p4
  let p6 := match input.stock_quantity with
    | some v => { p5 with stock_quantity := v } | none => p5
  let p7 := match input.min_stock_level with
    | some v => { p6 with min_stock_level := v } | none => p6
  match input.category with
    | some v => { p7 with category := v } | none => p7

/-- updateProduct from src/unnamed/part_000: throws NotFound if the id is
absent, otherwise applies the merged update to the row with that id and
returns the updated row. -/
def updateProduct (input : UpdateProductInput) (db : Db) (now : Int) :
    Db × Except String Product :=
  match findProduct db.products input.id with
  | none =>
      (db, .error ("Product with id " ++ toString input.id ++ " not found"))
  | some p =>
      ({ db with
          products := db.products.map (fun q =>
            if q.id = input.id then applyProductUpdate input q now else q) },
       .ok (applyProductUpdate input p now))

/-- An update against exDb3's product 1 that renames it, clears its
description with an explicit null, and changes its selling price. -/
def exUpdInput : UpdateProductInput :=
  { id := 1
    name := some "renamed"
    description := some none
    barcode := none
    cost_price := none
    selling_price := some 3
    stock_quantity := none
    min_stock_level := none
    category := none }

/-! ## createProduct (src/server/src/handlers/get_sales_report.ts, second
document: create_product handler) -/

/-- CreateProductInput from the zod schema (min_stock_level defaulted by the
schema; nullable text fields optional). -/
structure CreateProductInput where
  name : String
  description : Option String
  barcode : Option String
  cost_price : ℚ
  selling_price : ℚ
  stock_quantity : Int
  min_stock_level : Int
  category : Option String
deriving DecidableEq, Repr

/-- JavaScript truthiness of an optional string: undefined, null and the
empty string are falsy. -/
def truthyStr (o : Option String) : Bool :=
  match o with
  | none => false
  | some s => !(s == "")

/-- The `input.x || null` coercion: a falsy value is stored as null. -/
def strOrNull (o : Option String) : Option String :=
  if truthyStr o then o else none

/-- createProduct: when the barcode is truthy, a pre-check rejects the input
with Conflict if some row already carries that barcode; otherwise the row is
inserted with falsy text fields stored as null. -/
def createProduct (input : CreateProductInput) (db : Db) (now : Int)
    (newId : Nat) : Db × Except String Product :=
  if truthyStr input.barcode &&
      db.products.any (fun p => p.barcode == input.barcode) then
    (db, .error "Product with this barcode already exists")
  else
    let prod : Product :=
      { id := newId
        name := input.name
        description := strOrNull input.description
        barcode := strOrNull input.barcode
        cost_price := input.cost_price
        selling_price := input.selling_price
        stock_quantity := input.stock_quantity
        min_stock_level := input.min_stock_level
        category := input.category
        created_at := now
        updated_at := now }
    ({ db with products := db.products ++ [prod] }, .ok prod)

/-- A product input whose barcode is the empty string. -/
def exProdInput : CreateProductInput :=
  { name := "widget"
    description := none
    barcode := some ""
    cost_price := 1
    selling_price := 2
    stock_quantity := 10
    min_stock_level := 0
    category := none }

/-! ## loginUser (src/server/src/handlers/login_user.ts) -/

/-- LoginInput from the zod schema. -/
structure LoginInput where
  username : String
  password : String
deriving DecidableEq, Repr

/-- The success payload of loginUser: a token and the projection
filtering the user to id, username and role. -/
structure LoginResult where
  token : String
  user_id : Nat
  user_username : String
  user_role : Role
deriving DecidableEq, Repr

/-- Modelled from the spec: the password-hashing primitive (Bun.password,
external to the repository) is an opaque one-way function with a verify
counterpart; a password verifies against exactly the hash produced from it. -/
def hashPassword (p : String) : String := "hashed:" ++ p

/-- Modelled from the spec: verification succeeds on the hash of the same
password. -/
def verifyPassword (p h : String) : Bool := h == hashPassword p

/-- loginUser from src/server/src/handlers/login_user.ts: selects by
username, takes the first row; rejects if none, then if the account is
inactive, then if the supplied password differs from the literal string
password123 (the stored hash is not consulted); otherwise returns
token_(id)_(now) and the {id, username, role} projection. -/
def loginUser (input : LoginInput) (users : List User) (now : Int) :
    Except String LoginResult :=
  match users.find? (fun u => u.username == input.username) with
  | none => .error "Invalid username or password"
  | some u =>
      if !u.is_active then .error "User account is inactive"
      else if input.password ≠ "password123" then
        .error "Invalid username or password"
      else
        .ok { token := "token_" ++ toString u.id ++ "_" ++ toString now
              user_id := u.id
              user_username := u.username
              user_role := u.role }

/-- A single active user whose stored hash is the hash of "secret". -/
def exUsers : List User :=
  [ { id := 1, username := "alice", email := "alice@example.com"
      password_hash := hashPassword "secret", role := .cashier
      is_active := true } ]

/-! ## Reporting (src/server/src/handlers/get_sales_report.ts,
src/server/src/handlers/get_profit_loss_report.ts) -/

/-- The shared where-clause of both reports: status completed and created_at
within [startDate, endDate]. -/
def completedInRange (s e : Int) (t : Transaction) : Bool :=
  t.status = TransactionStatus.completed ∧ s ≤ t.created_at ∧ t.created_at ≤ e

/-- The Transaction ⋈ TransactionItem ⋈ Product inner join restricted to
completed transactions in range, as both report queries build it. -/
def reportJoinRows (db : Db) (s e : Int) :
    List (Transaction × TransactionItem × Product) :=
  (db.transactions.filter (completedInRange s e)).flatMap (fun t =>
    (db.transactionItems.filter (fun it => it.transaction_id = t.id)).flatMap (fun it =>
      (db.products.filter (fun p => p.id = it.product_id)).map (fun p => (t, it, p))))

/-- The aggregate metrics of getSalesReport's first query: SQL sum/count over
the joined rows, then average and profit derived from them. -/
structure SalesReportTotals where
  total_sales : ℚ
  total_transactions : Nat
  average_transaction_value : ℚ
  total_profit : ℚ
deriving DecidableEq, Repr

/-- getSalesReport's metric block from
src/server/src/handlers/get_sales_report.ts: total_sales =
sum(transactions.total_amount) and total_transactions =
count(transactions.id) over the three-way join, total_cost =
sum(quantity × cost_price), average = sales/count (0 when the count is 0),
profit = sales − cost. -/
def getSalesReportTotals (db : Db) (s e : Int) : SalesReportTotals :=
  let rows := reportJoinRows db s e
  let totalSales := (rows.map (fun r => r.1.total_amount)).sum
  let totalTransactions := rows.length
  let totalCost := (rows.map (fun r => (r.2.1.quantity : ℚ) * r.2.2.cost_price)).sum
  { total_sales := totalSales
    total_transactions := totalTransactions
    average_transaction_value :=
      if 0 < totalTransactions then totalSales / (totalTransactions : ℚ) else 0
    total_profit := totalSales - totalCost }

/-- The result record of getProfitLossReport. -/
structure ProfitLossReport where
  total_revenue : ℚ
  total_cost_of_goods_sold : ℚ
  gross_profit : ℚ
  gross_profit_margin : ℚ
  total_transactions : Nat
  period_start : Int
  period_end : Int
deriving DecidableEq, Repr

/-- getProfitLossReport from
src/server/src/handlers/get_profit_loss_report.ts: a forEach over the joined
rows accumulating revenue (Σ total_price) and cost of goods sold
(Σ quantity × cost_price) and collecting distinct transaction ids; margin is
(grossProfit/revenue)×100 when revenue > 0 and 0 otherwise. -/
def getProfitLossReport (db : Db) (s e : Int) : ProfitLossReport :=
  let rows := reportJoinRows db s e
  let totalRevenue := rows.foldl (fun a r => a + r.2.1.total_price) 0
  let totalCOGS := rows.foldl (fun a r => a + (r.2.1.quantity : ℚ) * r.2.2.cost_price) 0
  let grossProfit := totalRevenue - totalCOGS
  { total_revenue := totalRevenue
    total_cost_of_goods_sold := totalCOGS
    gross_profit := grossProfit
    gross_profit_margin :=
      if 0 < totalRevenue then grossProfit / totalRevenue * 100 else 0
    total_transactions := ((rows.map (fun r => r.1.id)).dedup).length
    period_start := s
    period_end := e }

/-- A completed transaction with no line items at all. -/
def exTxnNoItems : Transaction :=
  { id := 99, user_id := 1, total_amount := 77, tax_amount := 0
    discount_amount := 0, payment_method := .card, status := .completed
    receipt_number := "RCP-99", created_at := 5 }

/-- Claim-side total sales: the sum of total_amount over completed
transactions in range, each transaction counted once. -/
def specTotalSales (db : Db) (s e : Int) : ℚ :=
  ((db.transactions.filter (completedInRange s e)).map
    (fun t => t.total_amount)).sum

/-- Claim-side transaction count: the number of completed transactions in
range. -/
def specTxnCount (db : Db) (s e : Int) : Nat :=
  (db.transactions.filter (completedInRange s e)).length

/-- A product with cost price 10. -/
def exProd5 : Product :=
  { id := 1, name := "A", description := none, barcode := none
    cost_price := 10, selling_price := 15, stock_quantity := 0
    min_stock_level := 0, category := none, created_at := 0, updated_at := 0 }

/-- A completed transaction with total 100 carrying two line items. -/
def exTxn5 : Transaction :=
  { id := 1, user_id := 1, total_amount := 100, tax_amount := 0
    discount_amount := 0, payment_method := .cash, status := .completed
    receipt_number := "RCP-1", created_at := 5 }

/-- A pending transaction in the same range. -/
def exTxnPending : Transaction :=
  { id := 2, user_id := 1, total_amount := 999, tax_amount := 0
    discount_amount := 0, payment_method := .cash, status := .pending
    receipt_number := "RCP-2", created_at := 5 }

/-- First line item of exTxn5. -/
def exItem5a : TransactionItem :=
  { id := 1, transaction_id := 1, product_id := 1, quantity := 1
    unit_price := 50, total_price := 50 }

/-- Second line item of exTxn5. -/
def exItem5b : TransactionItem :=
  { id := 2, transaction_id := 1, product_id := 1, quantity := 1
    unit_price := 50, total_price := 50 }

/-- A database where the single completed transaction has two line items. -/
def exDb5 : Db :=
  { products := [exProd5]
    transactions := [exTxn5, exTxnPending]
    transactionItems := [exItem5a, exItem5b]
    stockAdjustments := []
    users := [] }

/-- The number of (item, product) join rows attached to a transaction. -/
def txnJoinCount (db : Db) (t : Transaction) : Nat :=
  ((db.transactionItems.filter (fun it => it.transaction_id = t.id)).flatMap
    (fun it => db.products.filter (fun p => p.id = it.product_id))).length

/-- The join rows produced for one transaction. -/
def rowsFor (db : Db) (t : Transaction) :
    List (Transaction × TransactionItem × Product) :=
  (db.transactionItems.filter (fun it => it.transaction_id = t.id)).flatMap
    (fun it =>
      (db.products.filter (fun p => p.id = it.product_id)).map
        (fun p => (t, it, p)))

theorem saleSubtotal_eq_specSubtotal (items : List SaleItemInput) :
    saleSubtotal items = specSubtotal items := by
  have key : ∀ (l : List SaleItemInput) (a : ℚ),
      l.foldl (fun s it => s + (it.quantity : ℚ) * it.unit_price) a
        = a + (l.map (fun it => (it.quantity : ℚ) * it.unit_price)).sum := by
    intro l
    induction l with
    | nil => intro a; simp
    | cons x xs ih =>
      intro a
      simp [List.foldl_cons, ih, add_assoc]
  simpa [saleSubtotal, specSubtotal] using key items 0

theorem soldQty_nil (pid : Nat) : soldQty [] pid = 0 := rfl

theorem soldQty_cons (x : SaleItemInput) (xs : List SaleItemInput) (pid : Nat) :
    soldQty (x :: xs) pid
      = (if x.product_id = pid then (x.quantity : Int) else 0) + soldQty xs pid := by
  by_cases h : x.product_id = pid <;> simp [soldQty, List.filter_cons, h]

theorem saleLoop_transactions (txId : Nat) (items : List SaleItemInput) (d : Db) :
    (saleLoop txId items d).transactions = d.transactions := by
  induction items generalizing d with
  | nil => rfl
  | cons x xs ih => simp [saleLoop, List.foldl_cons] at ih ⊢; exact ih _

theorem saleLoop_transactionItems (txId : Nat) (items : List SaleItemInput) (d : Db) :
    (saleLoop txId items d).transactionItems
      = d.transactionItems ++ items.map (mkSaleItemRow txId) := by
  induction items generalizing d with
  | nil => simp [saleLoop]
  | cons x xs ih =>
    simp only [saleLoop, List.foldl_cons] at ih ⊢
    rw [ih]
    simp

theorem saleLoop_products (txId : Nat) (items : List SaleItemInput) (d : Db) :
    (saleLoop txId items d).products
      = d.products.map
          (fun p => { p with stock_quantity := p.stock_quantity - soldQty items p.id }) := by
  induction items generalizing d with
  | nil =>
    simp only [saleLoop, List.foldl_nil, soldQty_nil, sub_zero]
    exact (List.map_id d.products).symm
  | cons x xs ih =>
    simp only [saleLoop, List.foldl_cons] at ih ⊢
    rw [ih]
    simp only [saleStockStep, List.map_map]
    refine List.map_congr_left (fun p _ => ?_)
    simp only [Function.comp]
    by_cases h : p.id = x.product_id
    · simp [h, soldQty_cons, sub_sub]
    · have h' : x.product_id ≠ p.id := fun hx => h hx.symm
      simp [h, soldQty_cons, h']

/-- C1: for a valid sale input, the returned Transaction's tax_amount is
subtotal × tax_rate and its total_amount is subtotal + tax − discount with
subtotal = Σ quantity × unit_price; the total is the plain (unclamped) value
of that formula, computed exactly. -/
theorem createSale_totals (input : CreateSaleInput) (userId : Nat) (db : Db)
    (now : Int) (txId : Nat) (h : ValidSaleInput input) :
    (createSale input userId db now txId).2.tax_amount
        = specSubtotal input.items * input.tax_rate ∧
    (createSale input userId db now txId).2.total_amount
        = specSubtotal input.items
            + specSubtotal input.items * input.tax_rate
            - input.discount_amount := by
  unfold createSale
  simp [saleSubtotal_eq_specSubtotal]

theorem exSaleInput_valid : ValidSaleInput exSaleInput := by
  refine ⟨by simp [exSaleInput], ?_, by norm_num [exSaleInput],
    by norm_num [exSaleInput]⟩
  intro it hit
  simp only [exSaleInput, List.mem_cons, List.mem_singleton,
    List.not_mem_nil, or_false] at hit
  rcases hit with h | h <;> subst h <;> exact ⟨by norm_num, by norm_num⟩

theorem createSale_totals_witness :
    ValidSaleInput exSaleInput ∧
    ((createSale exSaleInput 1 emptyDb 0 1).2.tax_amount
        = specSubtotal exSaleInput.items * exSaleInput.tax_rate ∧
     (createSale exSaleInput 1 emptyDb 0 1).2.total_amount
        = specSubtotal exSaleInput.items
            + specSubtotal exSaleInput.items * exSaleInput.tax_rate
            - exSaleInput.discount_amount) ∧
    (createSale exSaleInput 1 emptyDb 0 1).2.tax_amount = 81 / 10 ∧
    (createSale exSaleInput 1 emptyDb 0 1).2.total_amount = 571 / 10 :=
  ⟨exSaleInput_valid,
   createSale_totals exSaleInput 1 emptyDb 0 1 exSaleInput_valid,
   by norm_num [createSale, exSaleInput, saleSubtotal],
   by norm_num [createSale, exSaleInput, saleSubtotal]⟩

/-- C2: for a valid sale input, createSale appends one TransactionItem per
input item with total_price = quantity × unit_price, and every product's
stock_quantity drops by the summed quantity of the items referencing it,
by plain subtraction (no clamping); unreferenced products are unchanged. -/
theorem createSale_effects (input : CreateSaleInput) (userId : Nat) (db : Db)
    (now : Int) (txId : Nat) (h : ValidSaleInput input) :
    (createSale input userId db now txId).1.transactionItems
        = db.transactionItems
            ++ input.items.map (fun it =>
                 { id := 0
                   transaction_id := txId
                   product_id := it.product_id
                   quantity := it.quantity
                   unit_price := it.unit_price
                   total_price := (it.quantity : ℚ) * it.unit_price }) ∧
    (createSale input userId db now txId).1.products
        = db.products.map (fun p =>
            { p with stock_quantity := p.stock_quantity - soldQty input.items p.id }) ∧
    ∀ p ∈ db.products, (∀ it ∈ input.items, it.product_id ≠ p.id) →
      p ∈ (createSale input userId db now txId).1.products := by
  refine ⟨?_, ?_, ?_⟩
  · unfold createSale
    simp [saleLoop_transactionItems, mkSaleItemRow]
  · unfold createSale
    simp [saleLoop_products]
  · intro p hp hnone
    unfold createSale
    simp only [saleLoop_products]
    have hq : soldQty input.items p.id = 0 := by
      have : input.items.filter (fun it => it.product_id = p.id) = [] := by
        refine List.filter_eq_nil_iff.mpr (fun it hit => ?_)
        simpa using hnone it hit
      simp [soldQty, this]
    refine List.mem_map.mpr ⟨p, hp, ?_⟩
    simp [hq]

theorem createSale_effects_witness :
    ValidSaleInput exSaleInput2 ∧
    ((createSale exSaleInput2 1 exDb2 0 1).1.transactionItems
        = exDb2.transactionItems
            ++ exSaleInput2.items.map (fun it =>
                 { id := 0
                   transaction_id := 1
                   product_id := it.product_id
                   quantity := it.quantity
                   unit_price := it.unit_price
                   total_price := (it.quantity : ℚ) * it.unit_price }) ∧
     (createSale exSaleInput2 1 exDb2 0 1).1.products
        = exDb2.products.map (fun p =>
            { p with stock_quantity := p.stock_quantity - soldQty exSaleInput2.items p.id }) ∧
     ∀ p ∈ exDb2.products, (∀ it ∈ exSaleInput2.items, it.product_id ≠ p.id) →
       p ∈ (createSale exSaleInput2 1 exDb2 0 1).1.products) ∧
    (createSale exSaleInput2 1 exDb2 0 1).1.products.map Product.stock_quantity
        = [-4, 7] :=
  ⟨by norm_num [ValidSaleInput, exSaleInput2],
   createSale_effects exSaleInput2 1 exDb2 0 1
     (by norm_num [ValidSaleInput, exSaleInput2]),
   by norm_num [createSale, saleLoop, saleStockStep, exSaleInput2, exDb2]⟩

/-- C3: on an existing product with current stock c, createStockAdjustment
sets the stock to c + |quantity_change| for increase, max(0, c −
|quantity_change|) for decrease and max(0, quantity_change) for recount, and
the inserted audit row records the original signed quantity_change. -/
theorem createStockAdjustment_stock (input : CreateStockAdjustmentInput)
    (userId : Nat) (db : Db) (now : Int) (adjId : Nat) (p : Product)
    (hp : findProduct db.products input.product_id = some p) :
    (input.adjustment_type = .increase →
      (createStockAdjustment input userId db now adjId).1.products
        = db.products.map (fun q =>
            if q.id = input.product_id then
              { q with stock_quantity := p.stock_quantity + |input.quantity_change|,
                       updated_at := now }
            else q)) ∧
    (input.adjustment_type = .decrease →
      (createStockAdjustment input userId db now adjId).1.products
        = db.products.map (fun q =>
            if q.id = input.product_id then
              { q with stock_quantity := max 0 (p.stock_quantity - |input.quantity_change|),
                       updated_at := now }
            else q)) ∧
    (input.adjustment_type = .recount →
      (createStockAdjustment input userId db now adjId).1.products
        = db.products.map (fun q =>
            if q.id = input.product_id then
              { q with stock_quantity := max 0 input.quantity_change,
                       updated_at := now }
            else q)) ∧
    (createStockAdjustment input userId db now adjId).1.stockAdjustments
        = db.stockAdjustments
            ++ [{ id := adjId
                  product_id := input.product_id
                  user_id := userId
                  adjustment_type := input.adjustment_type
                  quantity_change := input.quantity_change
                  reason := input.reason
                  created_at := now }] := by
  have habs : ((input.quantity_change.natAbs : Int)) = |input.quantity_change| :=
    (Int.abs_eq_natAbs input.quantity_change).symm
  refine ⟨?_, ?_, ?_, ?_⟩ <;>
    first
      | (intro ht
         simp [createStockAdjustment, hp, ht, newStockQuantity, habs])
      | simp [createStockAdjustment, hp]

theorem createStockAdjustment_stock_witness :
    findProduct exDb3.products exAdjInput.product_id = some exProd3 ∧
    ((exAdjInput.adjustment_type = .increase →
      (createStockAdjustment exAdjInput 1 exDb3 0 1).1.products
        = exDb3.products.map (fun q =>
            if q.id = exAdjInput.product_id then
              { q with stock_quantity := exProd3.stock_quantity + |exAdjInput.quantity_change|,
                       updated_at := 0 }
            else q)) ∧
     (exAdjInput.adjustment_type = .decrease →
      (createStockAdjustment exAdjInput 1 exDb3 0 1).1.products
        = exDb3.products.map (fun q =>
            if q.id = exAdjInput.product_id then
              { q with stock_quantity := max 0 (exProd3.stock_quantity - |exAdjInput.quantity_change|),
                       updated_at := 0 }
            else q)) ∧
     (exAdjInput.adjustment_type = .recount →
      (createStockAdjustment exAdjInput 1 exDb3 0 1).1.products
        = exDb3.products.map (fun q =>
            if q.id = exAdjInput.product_id then
              { q with stock_quantity := max 0 exAdjInput.quantity_change,
                       updated_at := 0 }
            else q)) ∧
     (createStockAdjustment exAdjInput 1 exDb3 0 1).1.stockAdjustments
        = exDb3.stockAdjustments
            ++ [{ id := 1
                  product_id := exAdjInput.product_id
                  user_id := 1
                  adjustment_type := exAdjInput.adjustment_type
                  quantity_change := exAdjInput.quantity_change
                  reason := exAdjInput.reason
                  created_at := 0 }]) ∧
    (createStockAdjustment exAdjInput 1 exDb3 0 1).1.products.map Product.stock_quantity
        = [0] :=
  ⟨by norm_num [findProduct, exDb3, exProd3, exAdjInput, List.find?],
   createStockAdjustment_stock exAdjInput 1 exDb3 0 1 exProd3
     (by norm_num [findProduct, exDb3, exProd3, exAdjInput, List.find?]),
   by norm_num [createStockAdjustment, findProduct, newStockQuantity,
     exDb3, exProd3, exAdjInput, List.find?]⟩

/-- C4: createStockAdjustment fails exactly when the product id is absent;
on that failure the database is returned untouched (no audit row, no stock
change), and whenever the product exists the call succeeds with no further
validation. -/
theorem createStockAdjustment_notFound (input : CreateStockAdjustmentInput)
    (userId : Nat) (db : Db) (now : Int) (adjId : Nat)
    (h : input.reason ≠ "") :
    (((createStockAdjustment input userId db now adjId).2.isOk = false) ↔
        findProduct db.products input.product_id = none) ∧
    (findProduct db.products input.product_id = none →
        (createStockAdjustment input userId db now adjId).1 = db) := by
  constructor
  · constructor
    · intro hfail
      cases hfind : findProduct db.products input.product_id with
      | none => rfl
      | some p => simp [createStockAdjustment, hfind, Except.isOk, Except.toBool] at hfail
    · intro hfind
      simp [createStockAdjustment, hfind, Except.isOk, Except.toBool]
  · intro hfind
    simp [createStockAdjustment, hfind]

theorem createStockAdjustment_notFound_witness :
    exAdjInputMissing.reason ≠ "" ∧
    ((((createStockAdjustment exAdjInputMissing 1 exDb3 0 1).2.isOk = false) ↔
        findProduct exDb3.products exAdjInputMissing.product_id = none) ∧
     (findProduct exDb3.products exAdjInputMissing.product_id = none →
        (createStockAdjustment exAdjInputMissing 1 exDb3 0 1).1 = exDb3)) :=
  ⟨by simp [exAdjInputMissing],
   createStockAdjustment_notFound exAdjInputMissing 1 exDb3 0 1
     (by simp [exAdjInputMissing])⟩

/-- C8: getLowStockProducts returns exactly the products with
stock_quantity ≤ min_stock_level (boundary inclusive) and excludes every
product with stock_quantity > min_stock_level. -/
theorem getLowStockProducts_mem (db : Db) :
    (∀ p, p ∈ getLowStockProducts db ↔
        p ∈ db.products ∧ p.stock_quantity ≤ p.min_stock_level) ∧
    (∀ p ∈ db.products, p.min_stock_level < p.stock_quantity →
        p ∉ getLowStockProducts db) := by
  constructor
  · intro p
    simp [getLowStockProducts, List.mem_filter, and_comm]
  · intro p _ hgt hmem
    have := (List.mem_filter.mp hmem).2
    simp at this
    omega

theorem getLowStockProducts_mem_witness :
    ((∀ p, p ∈ getLowStockProducts exDb8 ↔
        p ∈ exDb8.products ∧ p.stock_quantity ≤ p.min_stock_level) ∧
     (∀ p ∈ exDb8.products, p.min_stock_level < p.stock_quantity →
        p ∉ getLowStockProducts exDb8)) ∧
    (getLowStockProducts exDb8).map Product.id = [1, 3] :=
  ⟨getLowStockProducts_mem exDb8,
   by norm_num [getLowStockProducts, exDb8, List.filter]⟩

theorem applyProductUpdate_eq (input : UpdateProductInput) (p : Product)
    (now : Int) :
    applyProductUpdate input p now
      = { p with
          name := input.name.getD p.name
          description := input.description.getD p.description
          barcode := input.barcode.getD p.barcode
          cost_price := input.cost_price.getD p.cost_price
          selling_price := input.selling_price.getD p.selling_price
          stock_quantity := input.stock_quantity.getD p.stock_quantity
          min_stock_level := input.min_stock_level.getD p.min_stock_level
          category := input.category.getD p.category
          updated_at := now } := by
  unfold applyProductUpdate
  rcases input with ⟨i, n, d, b, cp, sp, sq, ms, c⟩
  cases n <;> cases d <;> cases b <;> cases cp <;> cases sp <;>
    cases sq <;> cases ms <;> cases c <;> rfl

/-- C9: updateProduct fails exactly when the id is absent (leaving the
database untouched); on an existing product it changes only the fields
present in the input plus updated_at — an omitted field keeps its prior
value, a present field (including an explicit null) is overwritten — and
rows with other ids are untouched. -/
theorem updateProduct_spec (input : UpdateProductInput) (db : Db) (now : Int) :
    ((updateProduct input db now).2.isOk = false ↔
        findProduct db.products input.id = none) ∧
    (findProduct db.products input.id = none →
        (updateProduct input db now).1 = db) ∧
    (∀ p, findProduct db.products input.id = some p →
      ∃ r, (updateProduct input db now).2 = .ok r ∧
        r.name = input.name.getD p.name ∧
        r.description = input.description.getD p.description ∧
        r.barcode = input.barcode.getD p.barcode ∧
        r.cost_price = input.cost_price.getD p.cost_price ∧
        r.selling_price = input.selling_price.getD p.selling_price ∧
        r.stock_quantity = input.stock_quantity.getD p.stock_quantity ∧
        r.min_stock_level = input.min_stock_level.getD p.min_stock_level ∧
        r.category = input.category.getD p.category ∧
        r.updated_at = now ∧ r.id = p.id ∧ r.created_at = p.created_at ∧
        (∀ q ∈ db.products, q.id ≠ input.id →
          q ∈ (updateProduct input db now).1.products)) := by
  refine ⟨?_, ?_, ?_⟩
  · constructor
    · intro hfail
      cases hfind : findProduct db.products input.id with
      | none => rfl
      | some p => simp [updateProduct, hfind, Except.isOk, Except.toBool] at hfail
    · intro hfind
      simp [updateProduct, hfind, Except.isOk, Except.toBool]
  · intro hfind
    simp [updateProduct, hfind]
  · intro p hfind
    refine ⟨applyProductUpdate input p now, by simp [updateProduct, hfind], ?_⟩
    rw [applyProductUpdate_eq]
    refine ⟨rfl, rfl, rfl, rfl, rfl, rfl, rfl, rfl, rfl, rfl, rfl, ?_⟩
    intro q hq hne
    simp only [updateProduct, hfind]
    exact List.mem_map.mpr ⟨q, hq, by simp [hne]⟩

theorem updateProduct_spec_witness :
    (((updateProduct exUpdInput exDb3 9).2.isOk = false ↔
        findProduct exDb3.products exUpdInput.id = none) ∧
     (findProduct exDb3.products exUpdInput.id = none →
        (updateProduct exUpdInput exDb3 9).1 = exDb3) ∧
     (∀ p, findProduct exDb3.products exUpdInput.id = some p →
       ∃ r, (updateProduct exUpdInput exDb3 9).2 = .ok r ∧
         r.name = exUpdInput.name.getD p.name ∧
         r.description = exUpdInput.description.getD p.description ∧
         r.barcode = exUpdInput.barcode.getD p.barcode ∧
         r.cost_price = exUpdInput.cost_price.getD p.cost_price ∧
         r.selling_price = exUpdInput.selling_price.getD p.selling_price ∧
         r.stock_quantity = exUpdInput.stock_quantity.getD p.stock_quantity ∧
         r.min_stock_level = exUpdInput.min_stock_level.getD p.min_stock_level ∧
         r.category = exUpdInput.category.getD p.category ∧
         r.updated_at = 9 ∧ r.id = p.id ∧ r.created_at = p.created_at ∧
         (∀ q ∈ exDb3.products, q.id ≠ exUpdInput.id →
           q ∈ (updateProduct exUpdInput exDb3 9).1.products))) ∧
    (updateProduct exUpdInput exDb3 9).2
      = .ok { id := 1, name := "renamed", description := none, barcode := none
              cost_price := 1, selling_price := 3, stock_quantity := 100
              min_stock_level := 0, category := none, created_at := 0
              updated_at := 9 } :=
  ⟨updateProduct_spec exUpdInput exDb3 9,
   by norm_num [updateProduct, applyProductUpdate, findProduct, exUpdInput,
     exDb3, exProd3, List.find?]⟩

/-- C10: with barcode equal to the empty string the uniqueness pre-check is
skipped and the insert succeeds against every database state, storing
barcode null — so repeated calls with barcode "" never raise a Conflict. -/
theorem createProduct_emptyBarcode (input : CreateProductInput) (db : Db)
    (now : Int) (newId : Nat) (h : input.barcode = some "") :
    (createProduct input db now newId).2.isOk = true ∧
    (∀ r, (createProduct input db now newId).2 = .ok r → r.barcode = none) ∧
    (createProduct input db now newId).1.products.length
      = db.products.length + 1 := by
  refine ⟨?_, ?_, ?_⟩ <;>
    simp [createProduct, truthyStr, strOrNull, h, Except.isOk, Except.toBool]

theorem createProduct_emptyBarcode_witness :
    exProdInput.barcode = some "" ∧
    ((createProduct exProdInput emptyDb 0 1).2.isOk = true ∧
     (∀ r, (createProduct exProdInput emptyDb 0 1).2 = .ok r → r.barcode = none) ∧
     (createProduct exProdInput emptyDb 0 1).1.products.length
       = emptyDb.products.length + 1) ∧
    (createProduct exProdInput
        (createProduct exProdInput emptyDb 0 1).1 0 2).2.isOk = true :=
  ⟨rfl,
   createProduct_emptyBarcode exProdInput emptyDb 0 1 rfl,
   by simp [createProduct, truthyStr, strOrNull, exProdInput, emptyDb,
     Except.isOk, Except.toBool]⟩

theorem loginUser_hash_counterexample :
    exUsers.find? (fun u => u.username == "alice")
      = some { id := 1, username := "alice", email := "alice@example.com"
               password_hash := hashPassword "secret", role := .cashier
               is_active := true } ∧
    verifyPassword "secret" (hashPassword "secret") = true ∧
    (loginUser { username := "alice", password := "secret" } exUsers 0).isOk
      = false := by
  refine ⟨by simp [exUsers, List.find?], by simp [verifyPassword], ?_⟩
  simp [loginUser, exUsers, List.find?, Except.isOk, Except.toBool]

/-- C7 (amended): loginUser looks the user up by username only and fails if
no user matches, if the account is inactive (even with a correct password),
or if the supplied password differs from the fixed placeholder string
password123 — the stored password hash is not consulted; on success it
returns a token and the {id, username, role} projection of the first
matching user. -/
theorem loginUser_amended (input : LoginInput) (users : List User) (now : Int) :
    ((loginUser input users now).isOk = true ↔
      ∃ u, users.find? (fun v => v.username == input.username) = some u ∧
        u.is_active = true ∧ input.password = "password123") ∧
    (∀ u, users.find? (fun v => v.username == input.username) = some u →
      u.is_active = true → input.password = "password123" →
      ∃ r, loginUser input users now = .ok r ∧
        r.user_id = u.id ∧ r.user_username = u.username ∧
        r.user_role = u.role) := by
  constructor
  · cases hfind : users.find? (fun v => v.username == input.username) with
    | none =>
      simp [loginUser, hfind, Except.isOk, Except.toBool]
    | some u =>
      by_cases ha : u.is_active <;>
        by_cases hp : input.password = "password123" <;>
          simp [loginUser, hfind, ha, hp, Except.isOk, Except.toBool]
  · intro u hfind ha hp
    exact ⟨{ token := "token_" ++ toString u.id ++ "_" ++ toString now
             user_id := u.id
             user_username := u.username
             user_role := u.role },
           by simp [loginUser, hfind, ha, hp], rfl, rfl, rfl⟩

theorem loginUser_amended_witness :
    (((loginUser { username := "alice", password := "password123" } exUsers 3).isOk
        = true ↔
      ∃ u, exUsers.find? (fun v => v.username == "alice") = some u ∧
        u.is_active = true ∧ ("password123" : String) = "password123") ∧
     (∀ u, exUsers.find? (fun v => v.username == "alice") = some u →
       u.is_active = true → ("password123" : String) = "password123" →
       ∃ r, loginUser { username := "alice", password := "password123" } exUsers 3
          = .ok r ∧
         r.user_id = u.id ∧ r.user_username = u.username ∧
         r.user_role = u.role)) ∧
    (loginUser { username := "alice", password := "password123" } exUsers 3).isOk
      = true :=
  ⟨loginUser_amended { username := "alice", password := "password123" } exUsers 3,
   by simp [loginUser, exUsers, List.find?, Except.isOk, Except.toBool]⟩

theorem foldl_add_eq_sum {α : Type} (f : α → ℚ) (l : List α) (a : ℚ) :
    l.foldl (fun s x => s + f x) a = a + (l.map f).sum := by
  induction l generalizing a with
  | nil => simp
  | cons x xs ih => simp [List.foldl_cons, ih, add_assoc]

theorem sum_map_flatMap {α β : Type} (l : List α) (f : α → List β) (g : β → ℚ) :
    ((l.flatMap f).map g).sum = (l.map (fun a => ((f a).map g).sum)).sum := by
  induction l with
  | nil => simp
  | cons x xs ih => simp [List.flatMap_cons, ih]

theorem sum_map_const {α : Type} (l : List α) (c : ℚ) :
    (l.map (fun _ => c)).sum = (l.length : ℚ) * c := by
  simp [List.map_const]

/-- Appending a transaction that no transaction item references leaves the
reporting join unchanged. -/
theorem reportJoinRows_append_noitem (db : Db) (t : Transaction) (s e : Int)
    (h : ∀ it ∈ db.transactionItems, it.transaction_id ≠ t.id) :
    reportJoinRows { db with transactions := db.transactions ++ [t] } s e
      = reportJoinRows db s e := by
  unfold reportJoinRows
  simp only [List.filter_append, List.flatMap_append]
  have hempty : db.transactionItems.filter (fun it => it.transaction_id = t.id)
      = [] :=
    List.filter_eq_nil_iff.mpr (fun it hit => by simpa using h it hit)
  by_cases hc : completedInRange s e t
  · simp [List.filter_cons, hc, hempty]
  · simp [List.filter_cons, hc]

/-- Appending a non-completed transaction leaves the reporting join
unchanged, whatever items exist. -/
theorem reportJoinRows_append_noncompleted (db : Db) (t : Transaction)
    (s e : Int) (h : t.status ≠ TransactionStatus.completed) :
    reportJoinRows { db with transactions := db.transactions ++ [t] } s e
      = reportJoinRows db s e := by
  unfold reportJoinRows
  simp only [List.filter_append, List.flatMap_append]
  have hc : completedInRange s e t = false := by
    simp [completedInRange, h]
  simp [List.filter_cons, hc]

/-- C6: getProfitLossReport accumulates revenue = Σ item.total_price and
COGS = Σ quantity × cost_price over the completed-in-range joined line items,
gross profit is their difference, the margin is (profit/revenue)×100 when
revenue > 0 and 0 otherwise, total_transactions counts distinct transaction
ids among those line items, and a completed transaction with no line items
contributes nothing to any field. -/
theorem getProfitLossReport_spec (db : Db) (s e : Int) :
    (getProfitLossReport db s e).total_revenue
        = ((reportJoinRows db s e).map (fun r => r.2.1.total_price)).sum ∧
    (getProfitLossReport db s e).total_cost_of_goods_sold
        = ((reportJoinRows db s e).map
            (fun r => (r.2.1.quantity : ℚ) * r.2.2.cost_price)).sum ∧
    (getProfitLossReport db s e).gross_profit
        = (getProfitLossReport db s e).total_revenue
            - (getProfitLossReport db s e).total_cost_of_goods_sold ∧
    (getProfitLossReport db s e).gross_profit_margin
        = (if 0 < (getProfitLossReport db s e).total_revenue then
            (getProfitLossReport db s e).gross_profit
              / (getProfitLossReport db s e).total_revenue * 100
          else 0) ∧
    (getProfitLossReport db s e).total_transactions
        = ((reportJoinRows db s e).map (fun r => r.1.id)).toFinset.card ∧
    (∀ t : Transaction,
      (∀ it ∈ db.transactionItems, it.transaction_id ≠ t.id) →
      getProfitLossReport { db with transactions := db.transactions ++ [t] } s e
        = getProfitLossReport db s e) := by
  refine ⟨?_, ?_, ?_, ?_, ?_, ?_⟩
  · simp [getProfitLossReport, foldl_add_eq_sum]
  · simp [getProfitLossReport, foldl_add_eq_sum]
  · simp [getProfitLossReport]
  · simp [getProfitLossReport]
  · simp [getProfitLossReport, List.card_toFinset]
  · intro t ht
    unfold getProfitLossReport
    rw [reportJoinRows_append_noitem db t s e ht]

theorem getProfitLossReport_spec_witness :
    ((getProfitLossReport exDb5 0 10).total_revenue
        = ((reportJoinRows exDb5 0 10).map (fun r => r.2.1.total_price)).sum ∧
     (getProfitLossReport exDb5 0 10).total_cost_of_goods_sold
        = ((reportJoinRows exDb5 0 10).map
            (fun r => (r.2.1.quantity : ℚ) * r.2.2.cost_price)).sum ∧
     (getProfitLossReport exDb5 0 10).gross_profit
        = (getProfitLossReport exDb5 0 10).total_revenue
            - (getProfitLossReport exDb5 0 10).total_cost_of_goods_sold ∧
     (getProfitLossReport exDb5 0 10).gross_profit_margin
        = (if 0 < (getProfitLossReport exDb5 0 10).total_revenue then
            (getProfitLossReport exDb5 0 10).gross_profit
              / (getProfitLossReport exDb5 0 10).total_revenue * 100
          else 0) ∧
     (getProfitLossReport exDb5 0 10).total_transactions
        = ((reportJoinRows exDb5 0 10).map (fun r => r.1.id)).toFinset.card ∧
     (∀ t : Transaction,
       (∀ it ∈ exDb5.transactionItems, it.transaction_id ≠ t.id) →
       getProfitLossReport
           { exDb5 with transactions := exDb5.transactions ++ [t] } 0 10
         = getProfitLossReport exDb5 0 10)) ∧
    getProfitLossReport
        { exDb5 with transactions := exDb5.transactions ++ [exTxnNoItems] } 0 10
      = getProfitLossReport exDb5 0 10 :=
  ⟨getProfitLossReport_spec exDb5 0 10,
   (getProfitLossReport_spec exDb5 0 10).2.2.2.2.2 exTxnNoItems
     (by intro it hit
         simp only [exDb5, List.mem_cons, List.not_mem_nil, or_false] at hit
         rcases hit with h | h <;> subst h <;> simp [exItem5a, exItem5b, exTxnNoItems])⟩

theorem getSalesReport_totals_counterexample :
    (getSalesReportTotals exDb5 0 10).total_sales = 200 ∧
    specTotalSales exDb5 0 10 = 100 ∧
    (getSalesReportTotals exDb5 0 10).total_transactions = 2 ∧
    specTxnCount exDb5 0 10 = 1 := by
  refine ⟨?_, ?_, ?_, ?_⟩ <;>
    simp [getSalesReportTotals, reportJoinRows, specTotalSales,
      specTxnCount, exDb5, exProd5, exTxn5, exTxnPending, exItem5a, exItem5b,
      completedInRange, List.filter_cons, List.flatMap_cons] <;> norm_num

theorem reportJoinRows_eq_flatMap_rowsFor (db : Db) (s e : Int) :
    reportJoinRows db s e
      = (db.transactions.filter (completedInRange s e)).flatMap (rowsFor db) := by
  rfl

theorem rowsFor_fst (db : Db) (t : Transaction) :
    ∀ r ∈ rowsFor db t, r.1 = t := by
  intro r hr
  rcases List.mem_flatMap.mp hr with ⟨it, _, hmap⟩
  rcases List.mem_map.mp hmap with ⟨p, _, rfl⟩
  rfl

theorem rowsFor_length (db : Db) (t : Transaction) :
    (rowsFor db t).length = txnJoinCount db t := by
  simp [rowsFor, txnJoinCount, List.length_flatMap, Function.comp_def]

theorem rowsFor_sales_sum (db : Db) (t : Transaction) :
    ((rowsFor db t).map (fun r => r.1.total_amount)).sum
      = (txnJoinCount db t : ℚ) * t.total_amount := by
  have hcongr : (rowsFor db t).map (fun r => r.1.total_amount)
      = (rowsFor db t).map (fun _ => t.total_amount) :=
    List.map_congr_left (fun r hr => by rw [rowsFor_fst db t r hr])
  rw [hcongr, sum_map_const, rowsFor_length]

/-- C5 (amended): over the Transaction ⋈ TransactionItem ⋈ Product join of
completed transactions in range, total_sales counts each transaction's
total_amount once per joined line-item row, total_transactions is the number
of joined rows, total_profit subtracts Σ quantity × cost_price from that
sales figure, the average divides the two (0 when there are no rows), and
non-completed transactions are excluded. -/
theorem getSalesReport_totals_amended (db : Db) (s e : Int) :
    (getSalesReportTotals db s e).total_sales
      = ((db.transactions.filter (completedInRange s e)).map
          (fun t => (txnJoinCount db t : ℚ) * t.total_amount)).sum ∧
    (getSalesReportTotals db s e).total_transactions
      = ((db.transactions.filter (completedInRange s e)).map
          (fun t => txnJoinCount db t)).sum ∧
    (getSalesReportTotals db s e).total_profit
      = (getSalesReportTotals db s e).total_sales
          - ((reportJoinRows db s e).map
              (fun r => (r.2.1.quantity : ℚ) * r.2.2.cost_price)).sum ∧
    (getSalesReportTotals db s e).average_transaction_value
      = (if 0 < (getSalesReportTotals db s e).total_transactions then
          (getSalesReportTotals db s e).total_sales
            / ((getSalesReportTotals db s e).total_transactions : ℚ)
        else 0) ∧
    (∀ t : Transaction, t.status ≠ TransactionStatus.completed →
      getSalesReportTotals { db with transactions := db.transactions ++ [t] } s e
        = getSalesReportTotals db s e) := by
  refine ⟨?_, ?_, ?_, ?_, ?_⟩
  · show ((reportJoinRows db s e).map (fun r => r.1.total_amount)).sum = _
    rw [reportJoinRows_eq_flatMap_rowsFor, sum_map_flatMap]
    exact congrArg List.sum
      (List.map_congr_left (fun t _ => rowsFor_sales_sum db t))
  · show (reportJoinRows db s e).length = _
    rw [reportJoinRows_eq_flatMap_rowsFor, List.length_flatMap]
    exact congrArg List.sum
      (List.map_congr_left (fun t _ => by
        simp [Function.comp_def, rowsFor_length]))
  · rfl
  · rfl
  · intro t ht
    unfold getSalesReportTotals
    rw [reportJoinRows_append_noncompleted db t s e ht]

theorem getSalesReport_totals_amended_witness :
    ((getSalesReportTotals exDb5 0 10).total_sales
      = ((exDb5.transactions.filter (completedInRange 0 10)).map
          (fun t => (txnJoinCount exDb5 t : ℚ) * t.total_amount)).sum ∧
    (getSalesReportTotals exDb5 0 10).total_transactions
      = ((exDb5.transactions.filter (completedInRange 0 10)).map
          (fun t => txnJoinCount exDb5 t)).sum ∧
    (getSalesReportTotals exDb5 0 10).total_profit
      = (getSalesReportTotals exDb5 0 10).total_sales
          - ((reportJoinRows exDb5 0 10).map
              (fun r => (r.2.1.quantity : ℚ) * r.2.2.cost_price)).sum ∧
    (getSalesReportTotals exDb5 0 10).average_transaction_value
      = (if 0 < (getSalesReportTotals exDb5 0 10).total_transactions then
          (getSalesReportTotals exDb5 0 10).total_sales
            / ((getSalesReportTotals exDb5 0 10).total_transactions : ℚ)
        else 0) ∧
    (∀ t : Transaction, t.status ≠ TransactionStatus.completed →
      getSalesReportTotals
          { exDb5 with transactions := exDb5.transactions ++ [t] } 0 10
        = getSalesReportTotals exDb5 0 10)) ∧
    (getSalesReportTotals exDb5 0 10).total_profit = 180 :=
  ⟨getSalesReport_totals_amended exDb5 0 10,
   by simp [getSalesReportTotals, reportJoinRows, exDb5, exProd5, exTxn5,
     exTxnPending, exItem5a, exItem5b, completedInRange, List.filter_cons,
     List.flatMap_cons] <;> norm_num⟩

end POS
